import Mathlib

/-!
# Face rating: the scoring functions of `script.js`

The scoring core of the page script is four functions:
`calculateFaceRating`, `calculateSymmetry`, `calculateProportions` and
`calculateLandmarkPositioning`.  They are embedded here as pure functions on a
list of landmark points.

Numbers.  JavaScript numbers are modelled as the elements of a linearly ordered
field `α` with a floor function: exact arithmetic, no rounding error, no `NaN`
and no infinities.  The field quotient `a / b` agrees with the JavaScript
quotient whenever `b` is not zero.  The claims about a value that is computed
through a division carry the hypothesis that the divisor is not zero, and the
sample faces on which a value is evaluated have no zero divisor.

Built-ins.  `Math.sqrt`, `Math.atan2` and `Math.PI` belong to the language
runtime, not to the repository.  They are taken as a parameter `M : MathLib α`;
each theorem names the properties of the built-ins it relies on, and the
witnesses instantiate `M` with the real square root, the real two-argument
arctangent `atan2 y x = arg (x + y i)` and the real number `π`.

Binary64.  One claim, the invariance of the metrics under scaling and
translation, holds in exact arithmetic and fails under rounding.  For it the
symmetry metric is embedded a second time, `calculateSymmetry64`, with every
operation rounded to the nearest binary64 number (ties to even, normal range),
on rationals.

Failures.  Arithmetic never fails in JavaScript.  The only way the scoring
functions fail is the `TypeError` raised when a coordinate of a missing array
element is read.
-/

namespace FaceRating

/-! ## Data model -/

/-- A landmark position: an object with the numeric fields `x` and `y`. -/
structure Point (α : Type) where
  x : α
  y : α
deriving DecidableEq, Repr

/-- Failure values of a scoring call.  `TypeError` is what the script raises
when it reads `.x` of `undefined` (an index past the end of the array); it is
the only failure any code path produces.  `InsufficientLandmarks` and
`DegenerateGeometry` are the names of the error taxonomy of the specification;
they are listed so that statements about them can be written down. -/
inductive ScoreError where
  | TypeError
  | InsufficientLandmarks
  | DegenerateGeometry
deriving DecidableEq, Repr

/-- The language built-ins used by the scoring functions: `Math.sqrt`,
`Math.atan2` (first argument `y`, second argument `x`) and `Math.PI`. -/
structure MathLib (α : Type) where
  sqrt : α → α
  atan2 : α → α → α
  PI : α

/-- The object literal returned by `calculateFaceRating`. -/
structure RatingResult (α : Type) where
  total : α
  symmetry : ℤ
  proportions : ℤ
  landmarks : ℤ
deriving DecidableEq, Repr

section Model

variable {α : Type}

/-- The read `points[i]` followed by a coordinate access.  `points[i]` is
`undefined` when `i` is past the end, and reading `.x` of `undefined` raises a
`TypeError`.  All five reads of a metric happen before the metric returns, so
raising at the read is observationally the same as raising at the first use. -/
def landmarkAt (points : List (Point α)) (i : ℕ) : Except ScoreError (Point α) :=
  match points[i]? with
  | some p => Except.ok p
  | none => Except.error ScoreError.TypeError

variable [LinearOrderedField α]

/-- Source lines 261 to 288: `calculateSymmetry(points)`. -/
def calculateSymmetry (M : MathLib α) (points : List (Point α)) : Except ScoreError α := do
  let leftEye ← landmarkAt points 36
  let rightEye ← landmarkAt points 45
  let nose ← landmarkAt points 30
  let leftMouth ← landmarkAt points 48
  let rightMouth ← landmarkAt points 54
  let leftEyeDistance := M.sqrt ((leftEye.x - nose.x) ^ 2 + (leftEye.y - nose.y) ^ 2)
  let rightEyeDistance := M.sqrt ((rightEye.x - nose.x) ^ 2 + (rightEye.y - nose.y) ^ 2)
  let leftMouthDistance := M.sqrt ((leftMouth.x - nose.x) ^ 2 + (leftMouth.y - nose.y) ^ 2)
  let rightMouthDistance := M.sqrt ((rightMouth.x - nose.x) ^ 2 + (rightMouth.y - nose.y) ^ 2)
  let eyeSymmetry := min leftEyeDistance rightEyeDistance / max leftEyeDistance rightEyeDistance
  let mouthSymmetry :=
    min leftMouthDistance rightMouthDistance / max leftMouthDistance rightMouthDistance
  return (eyeSymmetry + mouthSymmetry) / 2

/-- Source lines 291 to 323: `calculateProportions(points)`.  The read of
`points[30]` (`nose`) is kept although the value is not used afterwards. -/
def calculateProportions (M : MathLib α) (points : List (Point α)) : Except ScoreError α := do
  let leftEye ← landmarkAt points 36
  let rightEye ← landmarkAt points 45
  let _nose ← landmarkAt points 30
  let leftMouth ← landmarkAt points 48
  let rightMouth ← landmarkAt points 54
  let faceWidth := M.sqrt ((rightEye.x - leftEye.x) ^ 2 + (rightEye.y - leftEye.y) ^ 2)
  let eyeCenter : Point α := ⟨(leftEye.x + rightEye.x) / 2, (leftEye.y + rightEye.y) / 2⟩
  let mouthCenter : Point α := ⟨(leftMouth.x + rightMouth.x) / 2, (leftMouth.y + rightMouth.y) / 2⟩
  let faceHeight :=
    M.sqrt ((mouthCenter.x - eyeCenter.x) ^ 2 + (mouthCenter.y - eyeCenter.y) ^ 2)
  let goldenRatio : α := 1.618
  let idealRatio := faceWidth / faceHeight
  let ratioDifference := |idealRatio - goldenRatio| / goldenRatio
  return max 0 (1 - ratioDifference)

/-- Source line 357, as a function of the eye angle:
`Math.max(0, 1 - (eyeAngle / (Math.PI / 6)))`. -/
def eyeAlignmentScore (M : MathLib α) (eyeAngle : α) : α :=
  max 0 (1 - eyeAngle / (M.PI / 6))

/-- Source lines 326 to 360: `calculateLandmarkPositioning(points)`.
`eyeDistance` is computed and never used, as in the source. -/
def calculateLandmarkPositioning (M : MathLib α) (points : List (Point α)) :
    Except ScoreError α := do
  let leftEye ← landmarkAt points 36
  let rightEye ← landmarkAt points 45
  let nose ← landmarkAt points 30
  let leftMouth ← landmarkAt points 48
  let rightMouth ← landmarkAt points 54
  let _eyeDistance := M.sqrt ((rightEye.x - leftEye.x) ^ 2 + (rightEye.y - leftEye.y) ^ 2)
  let leftEyeToNose := M.sqrt ((nose.x - leftEye.x) ^ 2 + (nose.y - leftEye.y) ^ 2)
  let rightEyeToNose := M.sqrt ((nose.x - rightEye.x) ^ 2 + (nose.y - rightEye.y) ^ 2)
  let noseToMouth :=
    M.sqrt (((leftMouth.x + rightMouth.x) / 2 - nose.x) ^ 2
      + ((leftMouth.y + rightMouth.y) / 2 - nose.y) ^ 2)
  let idealNosePosition := noseToMouth / 3
  let actualNosePosition := min leftEyeToNose rightEyeToNose
  let nosePositionRatio :=
    min actualNosePosition idealNosePosition / max actualNosePosition idealNosePosition
  let eyeAngle := |M.atan2 (rightEye.y - leftEye.y) (rightEye.x - leftEye.x)|
  let eyeAlignmentScore := eyeAlignmentScore M eyeAngle
  return (nosePositionRatio + eyeAlignmentScore) / 2

variable [FloorRing α]

/-- The built-in `Math.round`: the nearest integer, halves rounded towards
positive infinity. -/
def mathRound (x : α) : ℤ := ⌊x + 1 / 2⌋

/-- Source lines 249 to 257: the weighted average and the returned object, as
a function of the three metric scores. -/
def ratingOf (symmetryScore proportionsScore landmarksScore : α) : RatingResult α :=
  let totalScore := symmetryScore * 0.3 + proportionsScore * 0.4 + landmarksScore * 0.3
  { total := (mathRound (totalScore * 10) : α) / 10
    symmetry := mathRound (symmetryScore * 100)
    proportions := mathRound (proportionsScore * 100)
    landmarks := mathRound (landmarksScore * 100) }

/-- Source lines 237 to 258: `calculateFaceRating(landmarks)`, on
`points = landmarks.positions`. -/
def calculateFaceRating (M : MathLib α) (points : List (Point α)) :
    Except ScoreError (RatingResult α) := do
  let symmetryScore ← calculateSymmetry M points
  let proportionsScore ← calculateProportions M points
  let landmarksScore ← calculateLandmarkPositioning M points
  return ratingOf symmetryScore proportionsScore landmarksScore

end Model

/-! ## Quantities named in the statements -/

section Geometry

variable {α : Type} [LinearOrderedField α]

/-- The landmark `points[36]`, the outer corner of the left eye. -/
def leftEye (points : List (Point α)) : Point α := points.getD 36 ⟨0, 0⟩

/-- The landmark `points[45]`, the outer corner of the right eye. -/
def rightEye (points : List (Point α)) : Point α := points.getD 45 ⟨0, 0⟩

/-- The landmark `points[30]`, the tip of the nose. -/
def nose (points : List (Point α)) : Point α := points.getD 30 ⟨0, 0⟩

/-- The landmark `points[48]`, the left corner of the mouth. -/
def leftMouth (points : List (Point α)) : Point α := points.getD 48 ⟨0, 0⟩

/-- The landmark `points[54]`, the right corner of the mouth. -/
def rightMouth (points : List (Point α)) : Point α := points.getD 54 ⟨0, 0⟩

/-- The distance expression the source writes out at every use:
`Math.sqrt(Math.pow(a.x - b.x, 2) + Math.pow(a.y - b.y, 2))`. -/
def distance (M : MathLib α) (a b : Point α) : α :=
  M.sqrt ((a.x - b.x) ^ 2 + (a.y - b.y) ^ 2)

/-- The point half way between two points (`eyeCenter`, `mouthCenter`). -/
def center (a b : Point α) : Point α := ⟨(a.x + b.x) / 2, (a.y + b.y) / 2⟩

/-- The local `faceWidth` of `calculateProportions`. -/
def faceWidth (M : MathLib α) (points : List (Point α)) : α :=
  distance M (rightEye points) (leftEye points)

/-- The local `faceHeight` of `calculateProportions`. -/
def faceHeight (M : MathLib α) (points : List (Point α)) : α :=
  distance M (center (leftMouth points) (rightMouth points))
    (center (leftEye points) (rightEye points))

/-- The local `noseToMouth` of `calculateLandmarkPositioning`. -/
def noseToMouth (M : MathLib α) (points : List (Point α)) : α :=
  distance M (center (leftMouth points) (rightMouth points)) (nose points)

/-- The local `eyeAngle` of `calculateLandmarkPositioning`. -/
def eyeAngle (M : MathLib α) (points : List (Point α)) : α :=
  |M.atan2 ((rightEye points).y - (leftEye points).y) ((rightEye points).x - (leftEye points).x)|

/-- The local `nosePositionRatio` of `calculateLandmarkPositioning`. -/
def nosePositionRatio (M : MathLib α) (points : List (Point α)) : α :=
  min (min (distance M (nose points) (leftEye points)) (distance M (nose points) (rightEye points)))
      (noseToMouth M points / 3)
    / max (min (distance M (nose points) (leftEye points))
        (distance M (nose points) (rightEye points)))
      (noseToMouth M points / 3)

/-- A valid landmark set: the five landmarks are present and none of the
reference distances (nose to either eye corner, nose to either mouth corner,
eye centre to mouth centre, nose to mouth midpoint) is zero. -/
def Valid (M : MathLib α) (points : List (Point α)) : Prop :=
  55 ≤ points.length
    ∧ distance M (nose points) (leftEye points) ≠ 0
    ∧ distance M (nose points) (rightEye points) ≠ 0
    ∧ distance M (nose points) (leftMouth points) ≠ 0
    ∧ distance M (nose points) (rightMouth points) ≠ 0
    ∧ faceHeight M points ≠ 0
    ∧ noseToMouth M points ≠ 0

/-- The map `(x, y) ↦ (k * x + tx, k * y + ty)` on one point. -/
def scaleShift (k tx ty : α) (p : Point α) : Point α := ⟨k * p.x + tx, k * p.y + ty⟩

/-- A landmark list of 68 points with the five landmarks the metrics read at
the given positions and the origin everywhere else. -/
def sampleFace (leftEye rightEye nose leftMouth rightMouth : Point α) : List (Point α) :=
  (List.range 68).map fun i =>
    if i = 36 then leftEye else if i = 45 then rightEye else if i = 30 then nose
    else if i = 48 then leftMouth else if i = 54 then rightMouth else ⟨0, 0⟩

/-- A mirror-symmetric sample: eye corners `(0,0)` and `(6,0)`, nose `(3,4)`,
mouth corners `(0,8)` and `(6,8)`. -/
def symmetricFace : List (Point α) := sampleFace ⟨0, 0⟩ ⟨6, 0⟩ ⟨3, 4⟩ ⟨0, 8⟩ ⟨6, 8⟩

/-- A sample whose left eye corner coincides with the nose: both at `(0,0)`,
right eye corner `(6,0)`, mouth corners `(-3,4)` and `(3,4)`. -/
def coincidentFace : List (Point α) := sampleFace ⟨0, 0⟩ ⟨6, 0⟩ ⟨0, 0⟩ ⟨-3, 4⟩ ⟨3, 4⟩

/-- A sample with face width 1618 and face height 1000: eye corners `(0,0)`
and `(1618,0)`, nose `(809,500)`, mouth corners `(309,1000)` and
`(1309,1000)`. -/
def goldenFace : List (Point α) :=
  sampleFace ⟨0, 0⟩ ⟨1618, 0⟩ ⟨809, 500⟩ ⟨309, 1000⟩ ⟨1309, 1000⟩

/-- A sample four times as wide as it is high: eye corners `(0,0)` and
`(40,0)`, nose `(20,5)`, mouth corners `(15,10)` and `(25,10)`. -/
def wideFace : List (Point α) := sampleFace ⟨0, 0⟩ ⟨40, 0⟩ ⟨20, 5⟩ ⟨15, 10⟩ ⟨25, 10⟩

/-- A sample in pixel coordinates: eye corners `(178,167)` and `(240,140)`,
nose `(200,200)`, mouth corners `(170,240)` and `(230,240)`. -/
def tiltedFace : List (Point α) :=
  sampleFace ⟨178, 167⟩ ⟨240, 140⟩ ⟨200, 200⟩ ⟨170, 240⟩ ⟨230, 240⟩

end Geometry

/-! ## Binary64 evaluation of the symmetry metric -/

/-- The power `2 ^ e` for an integer exponent. -/
def pow2 (e : ℤ) : ℚ :=
  if 0 ≤ e then ((2 ^ e.toNat : ℕ) : ℚ) else 1 / ((2 ^ (-e).toNat : ℕ) : ℚ)

/-- The position of the leading binary digit of `n`, by repeated halving:
`log2Aux f n` is the `e` with `2 ^ e ≤ n < 2 ^ (e + 1)` when `1 ≤ n < 2 ^ f`. -/
def log2Aux : ℕ → ℕ → ℕ
  | 0, _ => 0
  | f + 1, n => if n < 2 then 0 else log2Aux f (n / 2) + 1

/-- The binary exponent of a positive rational: the integer `e` with
`2 ^ e ≤ q < 2 ^ (e + 1)`, for numerator and denominator below `2 ^ 2048`. -/
def floorLog2 (q : ℚ) : ℤ :=
  let e : ℤ := (log2Aux 2048 q.num.toNat : ℤ) - (log2Aux 2048 q.den : ℤ)
  if pow2 e ≤ q then e else e - 1

/-- The nearest integer, ties to the even one. -/
def roundHalfEven (q : ℚ) : ℤ :=
  let f : ℤ := ⌊q⌋
  let r : ℚ := q - f
  if r < 1 / 2 then f else if 1 / 2 < r then f + 1 else if f % 2 = 0 then f else f + 1

/-- Rounding of an exact result to the nearest binary64 number (53-bit
significand, ties to even), for results in the normal range. -/
def toDouble (q : ℚ) : ℚ :=
  if q = 0 then 0
  else
    let u : ℚ := pow2 (floorLog2 |q| - 52)
    (if q < 0 then -1 else 1) * (roundHalfEven (|q| / u) : ℚ) * u

/-- Integer square root by bits: `isqrtAux b n r` tries the binary digits
`b - 1` down to `0` on top of `r` and keeps each one that leaves the square at
most `n`; `isqrtAux 64 n 0` is the integer part of the square root of `n` for
`n < 2 ^ 128`. -/
def isqrtAux : ℕ → ℕ → ℕ → ℕ
  | 0, _, r => r
  | b + 1, n, r =>
    if (r + 2 ^ b) * (r + 2 ^ b) ≤ n then isqrtAux b n (r + 2 ^ b) else isqrtAux b n r

/-- The binary64 `Math.sqrt` on a positive argument: the binary64 number
nearest to the exact square root.  The argument 0 gives 0; a negative
argument, for which JavaScript gives `NaN`, does not occur under a sum of
squares. -/
def sqrtDouble (q : ℚ) : ℚ :=
  if q ≤ 0 then 0
  else
    let u : ℚ := pow2 (floorLog2 q / 2 - 52)
    let x : ℚ := q / (u * u)
    let m : ℕ := isqrtAux 64 (⌊x⌋).toNat 0
    let c : ℚ := ((m : ℚ) + 1 / 2) ^ 2
    let m1 : ℕ := if x < c then m else if c < x then m + 1 else if m % 2 = 0 then m else m + 1
    (m1 : ℚ) * u

/-- Binary64 subtraction. -/
def sub64 (a b : ℚ) : ℚ := toDouble (a - b)

/-- Binary64 addition. -/
def add64 (a b : ℚ) : ℚ := toDouble (a + b)

/-- Binary64 multiplication. -/
def mul64 (a b : ℚ) : ℚ := toDouble (a * b)

/-- Binary64 division, for a divisor that is not zero. -/
def div64 (a b : ℚ) : ℚ := toDouble (a / b)

/-- Binary64 `Math.pow(a, 2)`. -/
def pow64 (a : ℚ) : ℚ := toDouble (a ^ 2)

/-- Source lines 261 to 288 again, every operation rounded to binary64.  The
coordinates are rationals that are binary64 numbers (pixel coordinates), and
the value is the JavaScript one whenever no divisor is zero. -/
def calculateSymmetry64 (points : List (Point ℚ)) : Except ScoreError ℚ := do
  let leftEye ← landmarkAt points 36
  let rightEye ← landmarkAt points 45
  let nose ← landmarkAt points 30
  let leftMouth ← landmarkAt points 48
  let rightMouth ← landmarkAt points 54
  let leftEyeDistance :=
    sqrtDouble (add64 (pow64 (sub64 leftEye.x nose.x)) (pow64 (sub64 leftEye.y nose.y)))
  let rightEyeDistance :=
    sqrtDouble (add64 (pow64 (sub64 rightEye.x nose.x)) (pow64 (sub64 rightEye.y nose.y)))
  let leftMouthDistance :=
    sqrtDouble (add64 (pow64 (sub64 leftMouth.x nose.x)) (pow64 (sub64 leftMouth.y nose.y)))
  let rightMouthDistance :=
    sqrtDouble (add64 (pow64 (sub64 rightMouth.x nose.x)) (pow64 (sub64 rightMouth.y nose.y)))
  let eyeSymmetry :=
    div64 (min leftEyeDistance rightEyeDistance) (max leftEyeDistance rightEyeDistance)
  let mouthSymmetry :=
    div64 (min leftMouthDistance rightMouthDistance) (max leftMouthDistance rightMouthDistance)
  return div64 (add64 eyeSymmetry mouthSymmetry) 2

/-- Source line 254 in binary64: the `symmetry` field,
`Math.round(symmetryScore * 100)`. -/
def symmetryField64 (points : List (Point ℚ)) : Except ScoreError ℤ := do
  let symmetryScore ← calculateSymmetry64 points
  return mathRound (mul64 symmetryScore 100)

/-! ## Reading the landmarks -/

section Lookup

variable {α : Type}

theorem landmarkAt_error (points : List (Point α)) (i : ℕ) (h : points.length ≤ i) :
    landmarkAt points i = Except.error ScoreError.TypeError := by
  simp [landmarkAt, List.getElem?_eq_none h]

theorem landmarkAt_cases (points : List (Point α)) (i : ℕ) :
    (∃ p, landmarkAt points i = Except.ok p)
      ∨ landmarkAt points i = Except.error ScoreError.TypeError := by
  unfold landmarkAt
  cases points[i]? with
  | none => exact Or.inr rfl
  | some p => exact Or.inl ⟨p, rfl⟩

variable [LinearOrderedField α]

theorem landmarkAt_ok (points : List (Point α)) (i : ℕ) (h : i < points.length) :
    landmarkAt points i = Except.ok (points.getD i ⟨0, 0⟩) := by
  simp [landmarkAt, List.getElem?_eq_getElem h, List.getD_eq_getElem _ _ h]

theorem calculateSymmetry_ok (M : MathLib α) (points : List (Point α))
    (h : 55 ≤ points.length) :
    calculateSymmetry M points = Except.ok
      ((min (distance M (leftEye points) (nose points)) (distance M (rightEye points) (nose points))
          / max (distance M (leftEye points) (nose points))
              (distance M (rightEye points) (nose points))
        + min (distance M (leftMouth points) (nose points))
              (distance M (rightMouth points) (nose points))
          / max (distance M (leftMouth points) (nose points))
              (distance M (rightMouth points) (nose points))) / 2) := by
  simp only [calculateSymmetry, landmarkAt_ok points 36 (by omega),
    landmarkAt_ok points 45 (by omega), landmarkAt_ok points 30 (by omega),
    landmarkAt_ok points 48 (by omega), landmarkAt_ok points 54 (by omega)]
  rfl

theorem calculateProportions_ok (M : MathLib α) (points : List (Point α))
    (h : 55 ≤ points.length) :
    calculateProportions M points = Except.ok
      (max 0 (1 - |faceWidth M points / faceHeight M points - 1.618| / 1.618)) := by
  simp only [calculateProportions, landmarkAt_ok points 36 (by omega),
    landmarkAt_ok points 45 (by omega), landmarkAt_ok points 30 (by omega),
    landmarkAt_ok points 48 (by omega), landmarkAt_ok points 54 (by omega)]
  rfl

theorem calculateLandmarkPositioning_ok (M : MathLib α) (points : List (Point α))
    (h : 55 ≤ points.length) :
    calculateLandmarkPositioning M points = Except.ok
      ((nosePositionRatio M points + eyeAlignmentScore M (eyeAngle M points)) / 2) := by
  simp only [calculateLandmarkPositioning, landmarkAt_ok points 36 (by omega),
    landmarkAt_ok points 45 (by omega), landmarkAt_ok points 30 (by omega),
    landmarkAt_ok points 48 (by omega), landmarkAt_ok points 54 (by omega)]
  rfl

theorem calculateFaceRating_of_ok [FloorRing α] (M : MathLib α) (points : List (Point α))
    (S P L : α) (hS : calculateSymmetry M points = Except.ok S)
    (hP : calculateProportions M points = Except.ok P)
    (hL : calculateLandmarkPositioning M points = Except.ok L) :
    calculateFaceRating M points = Except.ok (ratingOf S P L) := by
  simp only [calculateFaceRating, hS, hP, hL]
  rfl

end Lookup

/-! ## Rounding -/

section Rounding

variable {α : Type} [LinearOrderedField α] [FloorRing α]

theorem mathRound_le_iff (x : α) (n : ℤ) : mathRound x ≤ n ↔ x + 1 / 2 < n + 1 := by
  unfold mathRound
  rw [← Int.lt_add_one_iff, Int.floor_lt]
  push_cast
  rfl

theorem le_mathRound_iff (x : α) (n : ℤ) : n ≤ mathRound x ↔ (n : α) ≤ x + 1 / 2 := by
  unfold mathRound
  exact Int.le_floor

theorem mathRound_eq_iff (x : α) (n : ℤ) :
    mathRound x = n ↔ (n : α) ≤ x + 1 / 2 ∧ x + 1 / 2 < n + 1 := by
  unfold mathRound
  exact Int.floor_eq_iff

theorem mathRound_sub_le (x : α) : |(mathRound x : α) - x| ≤ 1 / 2 := by
  have h1 : (mathRound x : α) ≤ x + 1 / 2 := Int.floor_le _
  have h2 : x + 1 / 2 < mathRound x + 1 := Int.lt_floor_add_one _
  rw [abs_le]
  constructor <;> linarith

theorem mathRound_percent_range (x : α) (h0 : 0 ≤ x) (h1 : x ≤ 1) :
    0 ≤ mathRound (x * 100) ∧ mathRound (x * 100) ≤ 100 := by
  constructor
  · rw [le_mathRound_iff]; push_cast; linarith
  · rw [mathRound_le_iff]; push_cast; linarith

theorem total_range (t : α) (h0 : 0 ≤ t) (h1 : t ≤ 1) :
    0 ≤ (mathRound (t * 10) : α) / 10 ∧ (mathRound (t * 10) : α) / 10 ≤ 1 := by
  have a : (0 : ℤ) ≤ mathRound (t * 10) := by
    rw [le_mathRound_iff]; push_cast; linarith
  have b : mathRound (t * 10) ≤ (10 : ℤ) := by
    rw [mathRound_le_iff]; push_cast; linarith
  have a1 : (0 : α) ≤ mathRound (t * 10) := by exact_mod_cast a
  have b1 : (mathRound (t * 10) : α) ≤ 10 := by exact_mod_cast b
  constructor
  · positivity
  · rw [div_le_one (by norm_num)]; exact b1

end Rounding

/-! ## Ranges of the three metrics -/

section Ranges

variable {α : Type} [LinearOrderedField α]

theorem weighted_range (S P L : α) (hS : 0 ≤ S ∧ S ≤ 1) (hP : 0 ≤ P ∧ P ≤ 1)
    (hL : 0 ≤ L ∧ L ≤ 1) :
    0 ≤ S * 0.3 + P * 0.4 + L * 0.3 ∧ S * 0.3 + P * 0.4 + L * 0.3 ≤ 1 := by
  obtain ⟨a, b⟩ := hS
  obtain ⟨c, d⟩ := hP
  obtain ⟨e, f⟩ := hL
  constructor <;> norm_num <;> linarith

theorem distance_comm (M : MathLib α) (a b : Point α) : distance M a b = distance M b a := by
  unfold distance
  congr 1
  ring

theorem distance_nonneg (M : MathLib α) (hsqrt : ∀ a, 0 ≤ a → 0 ≤ M.sqrt a) (a b : Point α) :
    0 ≤ distance M a b :=
  hsqrt _ (by positivity)

theorem min_div_max_range (a b : α) (ha : 0 ≤ a) (hb : 0 ≤ b) (h : max a b ≠ 0) :
    0 ≤ min a b / max a b ∧ min a b / max a b ≤ 1 := by
  have hmax : 0 < max a b := lt_of_le_of_ne (le_trans ha (le_max_left a b)) (Ne.symm h)
  constructor
  · exact div_nonneg (le_min ha hb) hmax.le
  · rw [div_le_one hmax]; exact min_le_max

theorem min_div_max_self (a : α) (h : a ≠ 0) : min a a / max a a = 1 := by
  rw [min_self, max_self, div_self h]

theorem proportions_range (r : α) :
    0 ≤ max 0 (1 - |r - 1.618| / 1.618) ∧ max 0 (1 - |r - 1.618| / 1.618) ≤ 1 := by
  refine ⟨le_max_left _ _, max_le zero_le_one ?_⟩
  have : 0 ≤ |r - 1.618| / 1.618 := div_nonneg (abs_nonneg _) (by norm_num)
  linarith

theorem eyeAlignmentScore_nonneg (M : MathLib α) (t : α) : 0 ≤ eyeAlignmentScore M t :=
  le_max_left _ _

theorem eyeAlignmentScore_le_one (M : MathLib α) (hpi : 0 < M.PI) (t : α) (ht : 0 ≤ t) :
    eyeAlignmentScore M t ≤ 1 := by
  unfold eyeAlignmentScore
  refine max_le zero_le_one ?_
  have : 0 ≤ t / (M.PI / 6) := div_nonneg ht (by positivity)
  linarith

theorem eyeAngle_nonneg (M : MathLib α) (points : List (Point α)) : 0 ≤ eyeAngle M points :=
  abs_nonneg _

theorem metrics_in_unit_interval (M : MathLib α) (points : List (Point α))
    (hsqrt : ∀ a, 0 ≤ a → 0 ≤ M.sqrt a) (hpi : 0 < M.PI) (hv : Valid M points) :
    ∃ S P L, calculateSymmetry M points = Except.ok S
      ∧ calculateProportions M points = Except.ok P
      ∧ calculateLandmarkPositioning M points = Except.ok L
      ∧ (0 ≤ S ∧ S ≤ 1) ∧ (0 ≤ P ∧ P ≤ 1) ∧ (0 ≤ L ∧ L ≤ 1) := by
  obtain ⟨hlen, hle, hre, hlm, hrm, -, -⟩ := hv
  have nn := distance_nonneg M hsqrt
  refine ⟨_, _, _, calculateSymmetry_ok M points hlen, calculateProportions_ok M points hlen,
    calculateLandmarkPositioning_ok M points hlen, ?_, proportions_range _, ?_⟩
  · have e := min_div_max_range (distance M (leftEye points) (nose points))
      (distance M (rightEye points) (nose points)) (nn _ _) (nn _ _)
      (by
        rw [distance_comm M (leftEye points)] 
        exact ne_of_gt (lt_of_lt_of_le (lt_of_le_of_ne (nn _ _) (Ne.symm hle)) (le_max_left _ _)))
    have m := min_div_max_range (distance M (leftMouth points) (nose points))
      (distance M (rightMouth points) (nose points)) (nn _ _) (nn _ _)
      (by
        rw [distance_comm M (leftMouth points)]
        exact ne_of_gt (lt_of_lt_of_le (lt_of_le_of_ne (nn _ _) (Ne.symm hlm)) (le_max_left _ _)))
    constructor <;> linarith [e.1, e.2, m.1, m.2]
  · have hact : 0 < min (distance M (nose points) (leftEye points))
        (distance M (nose points) (rightEye points)) :=
      lt_min (lt_of_le_of_ne (nn _ _) (Ne.symm hle)) (lt_of_le_of_ne (nn _ _) (Ne.symm hre))
    have hideal : 0 ≤ noseToMouth M points / 3 := div_nonneg (nn _ _) (by norm_num)
    have n := min_div_max_range _ (noseToMouth M points / 3) hact.le hideal
      (ne_of_gt (lt_of_lt_of_le hact (le_max_left _ _)))
    have a0 := eyeAlignmentScore_nonneg M (eyeAngle M points)
    have a1 := eyeAlignmentScore_le_one M hpi (eyeAngle M points) (eyeAngle_nonneg M points)
    unfold nosePositionRatio
    constructor <;> linarith [n.1, n.2]

end Ranges

/-! ## The real built-ins and a sample face -/

section RealBuiltins

theorem real_sqrt_nonneg : ∀ a : ℝ, 0 ≤ a → 0 ≤ Real.sqrt a :=
  fun a _ => Real.sqrt_nonneg a

theorem real_sqrt_of_sq (a b : ℝ) (hb : 0 ≤ b) (h : a = b ^ 2) : Real.sqrt a = b := by
  rw [h, Real.sqrt_sq hb]

theorem real_sqrt_scale : ∀ k a : ℝ, 0 < k → 0 ≤ a → Real.sqrt (k ^ 2 * a) = k * Real.sqrt a := by
  intro k a hk _
  rw [Real.sqrt_mul (sq_nonneg k), Real.sqrt_sq hk.le]

theorem real_atan2_scale :
    ∀ k y x : ℝ, 0 < k → Complex.arg ⟨k * x, k * y⟩ = Complex.arg ⟨x, y⟩ := by
  intro k y x hk
  have h : (⟨k * x, k * y⟩ : ℂ) = (k : ℂ) * ⟨x, y⟩ := by
    apply Complex.ext <;> simp
  rw [h, Complex.arg_real_mul _ hk]

theorem real_atan2_level (x : ℝ) (hx : 0 ≤ x) : Complex.arg ⟨x, 0⟩ = 0 :=
  Complex.arg_ofReal_of_nonneg hx

end RealBuiltins

section Sample

variable {α : Type} [LinearOrderedField α]

theorem sampleFace_length (a b c d e : Point α) : (sampleFace a b c d e).length = 68 := by
  simp [sampleFace]

theorem leftEye_sampleFace (a b c d e : Point α) : leftEye (sampleFace a b c d e) = a := rfl

theorem rightEye_sampleFace (a b c d e : Point α) : rightEye (sampleFace a b c d e) = b := rfl

theorem nose_sampleFace (a b c d e : Point α) : nose (sampleFace a b c d e) = c := rfl

theorem leftMouth_sampleFace (a b c d e : Point α) : leftMouth (sampleFace a b c d e) = d := rfl

theorem rightMouth_sampleFace (a b c d e : Point α) : rightMouth (sampleFace a b c d e) = e := rfl

end Sample

theorem coincidentFace_length {α : Type} [LinearOrderedField α] :
    55 ≤ (coincidentFace : List (Point α)).length := by
  unfold coincidentFace
  rw [sampleFace_length]
  norm_num

theorem sample_valid :
    Valid (⟨Real.sqrt, fun y x => Complex.arg ⟨x, y⟩, Real.pi⟩ : MathLib ℝ)
      symmetricFace := by
  have s25 : Real.sqrt 25 = 5 := real_sqrt_of_sq 25 5 (by norm_num) (by norm_num)
  have s64 : Real.sqrt 64 = 8 := real_sqrt_of_sq 64 8 (by norm_num) (by norm_num)
  have s16 : Real.sqrt 16 = 4 := real_sqrt_of_sq 16 4 (by norm_num) (by norm_num)
  unfold symmetricFace
  refine ⟨by rw [sampleFace_length]; norm_num, ?_, ?_, ?_, ?_, ?_, ?_⟩ <;>
    simp only [faceHeight, noseToMouth, distance, center, leftEye_sampleFace,
      rightEye_sampleFace, nose_sampleFace, leftMouth_sampleFace, rightMouth_sampleFace] <;>
    norm_num [s25, s64, s16]

/-! ## The aggregate: weighting, rounding and ranges -/

section Aggregate

variable {α : Type} [LinearOrderedField α] [FloorRing α]

theorem ratingOf_half_total : (ratingOf (1 : α) 0.5 0).total = 0.5 := by
  have h : mathRound (((1 : α) * 0.3 + 0.5 * 0.4 + 0 * 0.3) * 10) = 5 := by
    rw [mathRound_eq_iff]; norm_num
  show ((mathRound (((1 : α) * 0.3 + 0.5 * 0.4 + 0 * 0.3) * 10) : ℤ) : α) / 10 = 0.5
  rw [h]; norm_num

/-- C1, as the code has it: for metric scores `S`, `P`, `L` in `[0,1]` the
`total` field is `Math.round((0.3*S + 0.4*P + 0.3*L) * 10) / 10`, that is the
weighted average itself rounded to one decimal place: ten times the total is
an integer, the total is within `1/20` of the weighted average, and it lies in
`[0,1]`.  For `S = 1`, `P = 0.5`, `L = 0` the total is `0.5`. -/
theorem total_rounds_weighted_average (S P L : α) (hS : 0 ≤ S ∧ S ≤ 1) (hP : 0 ≤ P ∧ P ≤ 1)
    (hL : 0 ≤ L ∧ L ≤ 1) :
    (ratingOf S P L).total = (mathRound ((0.3 * S + 0.4 * P + 0.3 * L) * 10) : α) / 10
      ∧ (∃ n : ℤ, (ratingOf S P L).total * 10 = n)
      ∧ |(ratingOf S P L).total - (0.3 * S + 0.4 * P + 0.3 * L)| ≤ 1 / 20
      ∧ 0 ≤ (ratingOf S P L).total ∧ (ratingOf S P L).total ≤ 1
      ∧ (ratingOf (1 : α) 0.5 0).total = 0.5 := by
  have hw : 0.3 * S + 0.4 * P + 0.3 * L = S * 0.3 + P * 0.4 + L * 0.3 := by ring
  have ht : (ratingOf S P L).total = (mathRound ((S * 0.3 + P * 0.4 + L * 0.3) * 10) : α) / 10 :=
    rfl
  have hr := weighted_range S P L hS hP hL
  have hb := total_range _ hr.1 hr.2
  have hd := mathRound_sub_le ((S * 0.3 + P * 0.4 + L * 0.3) * 10)
  rw [hw, ht]
  refine ⟨rfl, ⟨mathRound ((S * 0.3 + P * 0.4 + L * 0.3) * 10), by
    rw [div_mul_cancel₀]; norm_num⟩, ?_, hb.1, hb.2, ratingOf_half_total⟩
  rw [abs_le] at hd ⊢
  constructor <;> linarith [hd.1, hd.2]

/-- C2: for a valid landmark set (at least 55 points, no reference distance
zero) the rating is returned, `symmetry`, `proportions` and `landmarks` are
integers between 0 and 100, and `total` lies between 0 and 10.  The built-ins
are assumed to give a non-negative square root and a positive `Math.PI`. -/
theorem rating_fields_in_range (M : MathLib α) (points : List (Point α))
    (hsqrt : ∀ a, 0 ≤ a → 0 ≤ M.sqrt a) (hpi : 0 < M.PI) (hv : Valid M points) :
    ∃ r, calculateFaceRating M points = Except.ok r
      ∧ (0 ≤ r.symmetry ∧ r.symmetry ≤ 100)
      ∧ (0 ≤ r.proportions ∧ r.proportions ≤ 100)
      ∧ (0 ≤ r.landmarks ∧ r.landmarks ≤ 100)
      ∧ (0 ≤ r.total ∧ r.total ≤ 10) := by
  obtain ⟨S, P, L, eS, eP, eL, hS, hP, hL⟩ := metrics_in_unit_interval M points hsqrt hpi hv
  have hr := weighted_range S P L hS hP hL
  have hb := total_range _ hr.1 hr.2
  refine ⟨ratingOf S P L, calculateFaceRating_of_ok M points S P L eS eP eL,
    mathRound_percent_range S hS.1 hS.2, mathRound_percent_range P hP.1 hP.2,
    mathRound_percent_range L hL.1 hL.2, hb.1, ?_⟩
  exact le_trans hb.2 (by norm_num)

/-- C10: for a valid landmark set the three metric scores `S`, `P`, `L` lie in
`[0,1]`, so does `totalScore = 0.3*S + 0.4*P + 0.3*L`, and the `total` field is
`Math.round(totalScore * 10) / 10`: an integer multiple of `0.1` that lies in
`[0,1]`. -/
theorem total_is_tenth_in_unit_interval (M : MathLib α) (points : List (Point α))
    (hsqrt : ∀ a, 0 ≤ a → 0 ≤ M.sqrt a) (hpi : 0 < M.PI) (hv : Valid M points) :
    ∃ S P L r, calculateSymmetry M points = Except.ok S
      ∧ calculateProportions M points = Except.ok P
      ∧ calculateLandmarkPositioning M points = Except.ok L
      ∧ calculateFaceRating M points = Except.ok r
      ∧ (0 ≤ 0.3 * S + 0.4 * P + 0.3 * L ∧ 0.3 * S + 0.4 * P + 0.3 * L ≤ 1)
      ∧ r.total = (mathRound ((0.3 * S + 0.4 * P + 0.3 * L) * 10) : α) / 10
      ∧ (∃ n : ℤ, r.total = n * 0.1)
      ∧ 0 ≤ r.total ∧ r.total ≤ 1 := by
  obtain ⟨S, P, L, eS, eP, eL, hS, hP, hL⟩ := metrics_in_unit_interval M points hsqrt hpi hv
  have hw : 0.3 * S + 0.4 * P + 0.3 * L = S * 0.3 + P * 0.4 + L * 0.3 := by ring
  have hr := weighted_range S P L hS hP hL
  have hb := total_range _ hr.1 hr.2
  refine ⟨S, P, L, ratingOf S P L, eS, eP, eL, calculateFaceRating_of_ok M points S P L eS eP eL,
    ?_, ?_, ⟨mathRound ((S * 0.3 + P * 0.4 + L * 0.3) * 10), ?_⟩, hb.1, hb.2⟩
  · rw [hw]; exact hr
  · rw [hw]; rfl
  · show ((mathRound ((S * 0.3 + P * 0.4 + L * 0.3) * 10) : ℤ) : α) / 10 = _
    norm_num [div_eq_mul_inv]

end Aggregate

/-- C1 as stated fails: with `S = 1`, `P = 0.5`, `L = 0` the code returns the
total `0.5`, not `5.0`. -/
theorem total_not_on_ten_scale :
    (ratingOf (1 : ℚ) 0.5 0).total = 0.5 ∧ (ratingOf (1 : ℚ) 0.5 0).total ≠ 5.0 := by
  have h : (ratingOf (1 : ℚ) 0.5 0).total = 0.5 := ratingOf_half_total
  rw [h]
  norm_num

theorem total_rounds_weighted_average_witness :
    ((0 : ℚ) ≤ 1 ∧ (1 : ℚ) ≤ 1) ∧ ((0 : ℚ) ≤ 0.5 ∧ (0.5 : ℚ) ≤ 1) ∧ ((0 : ℚ) ≤ 0 ∧ (0 : ℚ) ≤ 1)
      ∧ (ratingOf (1 : ℚ) 0.5 0).total = 0.5 :=
  ⟨by norm_num, by norm_num, by norm_num,
    (total_rounds_weighted_average (1 : ℚ) 0.5 0 (by norm_num) (by norm_num) (by norm_num)).2.2.2.2.2⟩

theorem rating_fields_in_range_witness :
    Valid (⟨Real.sqrt, fun y x => Complex.arg ⟨x, y⟩, Real.pi⟩ : MathLib ℝ)
        symmetricFace
      ∧ ∃ r, calculateFaceRating (⟨Real.sqrt, fun y x => Complex.arg ⟨x, y⟩, Real.pi⟩ : MathLib ℝ)
            symmetricFace = Except.ok r
          ∧ (0 ≤ r.symmetry ∧ r.symmetry ≤ 100)
          ∧ (0 ≤ r.proportions ∧ r.proportions ≤ 100)
          ∧ (0 ≤ r.landmarks ∧ r.landmarks ≤ 100)
          ∧ (0 ≤ r.total ∧ r.total ≤ 10) :=
  ⟨sample_valid, rating_fields_in_range _ _ real_sqrt_nonneg Real.pi_pos sample_valid⟩

theorem total_is_tenth_in_unit_interval_witness :
    Valid (⟨Real.sqrt, fun y x => Complex.arg ⟨x, y⟩, Real.pi⟩ : MathLib ℝ)
        symmetricFace
      ∧ ∃ r, calculateFaceRating (⟨Real.sqrt, fun y x => Complex.arg ⟨x, y⟩, Real.pi⟩ : MathLib ℝ)
            symmetricFace = Except.ok r
          ∧ (∃ n : ℤ, r.total = n * 0.1) ∧ 0 ≤ r.total ∧ r.total ≤ 1 := by
  obtain ⟨S, P, L, r, -, -, -, hr, -, -, hn, h0, h1⟩ :=
    total_is_tenth_in_unit_interval _ _ real_sqrt_nonneg Real.pi_pos sample_valid
  exact ⟨sample_valid, r, hr, hn, h0, h1⟩

/-! ## Short input -/

section Short

variable {α : Type} [LinearOrderedField α]

theorem calculateSymmetry_short (M : MathLib α) (points : List (Point α))
    (h : points.length < 55) :
    calculateSymmetry M points = Except.error ScoreError.TypeError := by
  have h54 := landmarkAt_error points 54 (by omega)
  unfold calculateSymmetry
  rcases landmarkAt_cases points 36 with ⟨p1, e1⟩ | e1 <;> rw [e1]
  · rcases landmarkAt_cases points 45 with ⟨p2, e2⟩ | e2 <;> rw [e2]
    · rcases landmarkAt_cases points 30 with ⟨p3, e3⟩ | e3 <;> rw [e3]
      · rcases landmarkAt_cases points 48 with ⟨p4, e4⟩ | e4 <;> rw [e4]
        · rw [h54]; rfl
        · rfl
      · rfl
    · rfl
  · rfl

theorem calculateFaceRating_short [FloorRing α] (M : MathLib α) (points : List (Point α))
    (h : points.length < 55) :
    calculateFaceRating M points = Except.error ScoreError.TypeError := by
  unfold calculateFaceRating
  rw [calculateSymmetry_short M points h]
  rfl

/-- C4, as the code has it: on a landmark sequence shorter than 55 the first
metric, `calculateSymmetry`, raises the runtime `TypeError` of reading a
coordinate of a missing point, so no metric value is produced and
`calculateFaceRating` fails with that `TypeError` and returns no rating. -/
theorem short_input_raises_type_error [FloorRing α] (M : MathLib α) (points : List (Point α))
    (h : points.length < 55) :
    calculateSymmetry M points = Except.error ScoreError.TypeError
      ∧ calculateFaceRating M points = Except.error ScoreError.TypeError
      ∧ ¬ ∃ r, calculateFaceRating M points = Except.ok r := by
  refine ⟨calculateSymmetry_short M points h, calculateFaceRating_short M points h, ?_⟩
  rintro ⟨r, hr⟩
  rw [calculateFaceRating_short M points h] at hr
  cases hr

end Short

/-- C4 as stated fails: on a sequence of 54 points the failure is the runtime
`TypeError`, not `InsufficientLandmarks`. -/
theorem short_input_not_insufficient_landmarks :
    (List.replicate 54 (⟨0, 0⟩ : Point ℝ)).length < 55
      ∧ calculateFaceRating (⟨Real.sqrt, fun y x => Complex.arg ⟨x, y⟩, Real.pi⟩ : MathLib ℝ)
          (List.replicate 54 ⟨0, 0⟩) = Except.error ScoreError.TypeError
      ∧ calculateFaceRating (⟨Real.sqrt, fun y x => Complex.arg ⟨x, y⟩, Real.pi⟩ : MathLib ℝ)
          (List.replicate 54 ⟨0, 0⟩) ≠ Except.error ScoreError.InsufficientLandmarks := by
  have hlen : (List.replicate 54 (⟨0, 0⟩ : Point ℝ)).length < 55 := by simp
  refine ⟨hlen, calculateFaceRating_short _ _ hlen, ?_⟩
  rw [calculateFaceRating_short _ _ hlen]
  intro h
  injection h with h
  cases h

theorem short_input_raises_type_error_witness :
    (List.replicate 54 (⟨0, 0⟩ : Point ℝ)).length < 55
      ∧ calculateFaceRating (⟨Real.sqrt, fun y x => Complex.arg ⟨x, y⟩, Real.pi⟩ : MathLib ℝ)
          (List.replicate 54 ⟨0, 0⟩) = Except.error ScoreError.TypeError :=
  ⟨by simp, (short_input_raises_type_error _ _ (by simp)).2.1⟩

/-! ## Symmetry and proportions -/

section Metrics

variable {α : Type} [LinearOrderedField α] [FloorRing α]

theorem mathRound_hundred : mathRound ((1 : α) * 100) = 100 := by
  rw [mathRound_eq_iff]; norm_num

theorem calculateFaceRating_ok (M : MathLib α) (points : List (Point α))
    (h : 55 ≤ points.length) :
    ∃ S P L, calculateSymmetry M points = Except.ok S
      ∧ calculateProportions M points = Except.ok P
      ∧ calculateLandmarkPositioning M points = Except.ok L
      ∧ calculateFaceRating M points = Except.ok (ratingOf S P L) :=
  ⟨_, _, _, calculateSymmetry_ok M points h, calculateProportions_ok M points h,
    calculateLandmarkPositioning_ok M points h,
    calculateFaceRating_of_ok M points _ _ _ (calculateSymmetry_ok M points h)
      (calculateProportions_ok M points h) (calculateLandmarkPositioning_ok M points h)⟩

/-- C5: when the nose is equally far from the two eye corners and equally far
from the two mouth corners, both distances positive, `calculateSymmetry`
returns exactly 1 and the `symmetry` field of the rating is 100. -/
theorem mirror_face_full_symmetry (M : MathLib α) (points : List (Point α))
    (hlen : 55 ≤ points.length)
    (hEye : distance M (nose points) (leftEye points) = distance M (nose points) (rightEye points))
    (hEyePos : 0 < distance M (nose points) (leftEye points))
    (hMouth :
      distance M (nose points) (leftMouth points) = distance M (nose points) (rightMouth points))
    (hMouthPos : 0 < distance M (nose points) (leftMouth points)) :
    calculateSymmetry M points = Except.ok 1
      ∧ ∃ r, calculateFaceRating M points = Except.ok r ∧ r.symmetry = 100 := by
  have hS : calculateSymmetry M points = Except.ok 1 := by
    rw [calculateSymmetry_ok M points hlen, distance_comm M (leftEye points),
      distance_comm M (rightEye points), distance_comm M (leftMouth points),
      distance_comm M (rightMouth points), ← hEye, ← hMouth,
      min_div_max_self _ (ne_of_gt hEyePos), min_div_max_self _ (ne_of_gt hMouthPos)]
    norm_num
  refine ⟨hS, ratingOf 1 _ _, calculateFaceRating_of_ok M points 1 _ _ hS
    (calculateProportions_ok M points hlen) (calculateLandmarkPositioning_ok M points hlen), ?_⟩
  exact mathRound_hundred

/-- C6: when `faceHeight` is positive and `faceWidth / faceHeight` is exactly
`1.618`, `calculateProportions` returns exactly 1 and the `proportions` field
of the rating is 100. -/
theorem golden_face_full_proportions (M : MathLib α) (points : List (Point α))
    (hlen : 55 ≤ points.length) (_hHeight : 0 < faceHeight M points)
    (hGolden : faceWidth M points / faceHeight M points = 1.618) :
    calculateProportions M points = Except.ok 1
      ∧ ∃ r, calculateFaceRating M points = Except.ok r ∧ r.proportions = 100 := by
  have hP : calculateProportions M points = Except.ok 1 := by
    rw [calculateProportions_ok M points hlen, hGolden]
    norm_num
  refine ⟨hP, ratingOf _ 1 _, calculateFaceRating_of_ok M points _ 1 _
    (calculateSymmetry_ok M points hlen) hP (calculateLandmarkPositioning_ok M points hlen), ?_⟩
  exact mathRound_hundred

end Metrics

section Falloff

variable {α : Type} [LinearOrderedField α]

/-- C8: when `faceHeight` is positive, `calculateProportions` returns
`max(0, 1 - |faceWidth/faceHeight - 1.618| / 1.618)`; the value lies in
`[0,1]`, and it is exactly 0 whenever `faceWidth/faceHeight` is at least
`2 * 1.618`. -/
theorem proportions_linear_falloff (M : MathLib α) (points : List (Point α))
    (hlen : 55 ≤ points.length) (_hHeight : 0 < faceHeight M points) :
    ∃ v, calculateProportions M points = Except.ok v
      ∧ v = max 0 (1 - |faceWidth M points / faceHeight M points - 1.618| / 1.618)
      ∧ 0 ≤ v ∧ v ≤ 1
      ∧ (2 * 1.618 ≤ faceWidth M points / faceHeight M points → v = 0) := by
  refine ⟨_, calculateProportions_ok M points hlen, rfl, (proportions_range _).1,
    (proportions_range _).2, ?_⟩
  intro h
  apply max_eq_left
  have h1 : (0 : α) ≤ faceWidth M points / faceHeight M points - 1.618 := by
    norm_num at h ⊢; linarith
  rw [abs_of_nonneg h1, sub_nonpos, le_div_iff₀ (by norm_num)]
  norm_num at h ⊢
  linarith

end Falloff

/-! ## Evaluation on sample faces -/

theorem coincident_sample_metrics :
    calculateSymmetry (⟨Real.sqrt, fun y x => Complex.arg ⟨x, y⟩, Real.pi⟩ : MathLib ℝ)
        coincidentFace = Except.ok (1 / 2)
      ∧ calculateProportions (⟨Real.sqrt, fun y x => Complex.arg ⟨x, y⟩, Real.pi⟩ : MathLib ℝ)
        coincidentFace = Except.ok (600 / 809)
      ∧ calculateLandmarkPositioning
        (⟨Real.sqrt, fun y x => Complex.arg ⟨x, y⟩, Real.pi⟩ : MathLib ℝ)
        coincidentFace = Except.ok (1 / 2) := by
  have s25 : Real.sqrt 25 = 5 := real_sqrt_of_sq 25 5 (by norm_num) (by norm_num)
  have s36 : Real.sqrt 36 = 6 := real_sqrt_of_sq 36 6 (by norm_num) (by norm_num)
  have s16 : Real.sqrt 16 = 4 := real_sqrt_of_sq 16 4 (by norm_num) (by norm_num)
  have a0 : Complex.arg ⟨6, 0⟩ = 0 := real_atan2_level 6 (by norm_num)
  unfold coincidentFace
  have hlen : 55 ≤ (sampleFace (⟨0, 0⟩ : Point ℝ) ⟨6, 0⟩ ⟨0, 0⟩ ⟨-3, 4⟩ ⟨3, 4⟩).length := by
    rw [sampleFace_length]; norm_num
  refine ⟨?_, ?_, ?_⟩
  · rw [calculateSymmetry_ok _ _ hlen]
    simp only [distance, leftEye_sampleFace, rightEye_sampleFace, nose_sampleFace,
      leftMouth_sampleFace, rightMouth_sampleFace]
    norm_num [s25, s36]
  · rw [calculateProportions_ok _ _ hlen]
    simp only [faceWidth, faceHeight, distance, center, leftEye_sampleFace,
      rightEye_sampleFace, nose_sampleFace, leftMouth_sampleFace, rightMouth_sampleFace]
    norm_num [s25, s36]
    rw [abs_of_pos (by norm_num : (0 : ℝ) < 209 / 500)]
    norm_num
  · rw [calculateLandmarkPositioning_ok _ _ hlen]
    simp only [nosePositionRatio, eyeAngle, eyeAlignmentScore, noseToMouth, distance, center,
      leftEye_sampleFace, rightEye_sampleFace, nose_sampleFace, leftMouth_sampleFace,
      rightMouth_sampleFace]
    norm_num [s16, s36, a0]

/-! ## A left eye that coincides with the nose -/

section Coincident

variable {α : Type} [LinearOrderedField α] [FloorRing α]

/-- C3, as the code has it: on a landmark set of at least 55 points in which
`leftEye` coincides with `nose` nothing fails; `calculateFaceRating` returns a
rating.  When the square root of 0 is 0 and `rightEye` and `leftMouth` are at
a positive distance from `nose`, the divisor `max(dLE, dRE)` is the positive
distance `dRE`, the eye ratio is `0`, and `calculateSymmetry` returns half the
mouth ratio. -/
theorem coincident_eye_returns_rating (M : MathLib α) (points : List (Point α))
    (hlen : 55 ≤ points.length) (hco : leftEye points = nose points) :
    (∃ r, calculateFaceRating M points = Except.ok r)
      ∧ (M.sqrt 0 = 0 → 0 < distance M (rightEye points) (nose points) →
          0 < distance M (leftMouth points) (nose points) →
          max (distance M (leftEye points) (nose points))
              (distance M (rightEye points) (nose points))
            = distance M (rightEye points) (nose points)
          ∧ calculateSymmetry M points = Except.ok
            ((0 + min (distance M (leftMouth points) (nose points))
                  (distance M (rightMouth points) (nose points))
                / max (distance M (leftMouth points) (nose points))
                  (distance M (rightMouth points) (nose points))) / 2)) := by
  obtain ⟨S, P, L, -, -, -, hr⟩ := calculateFaceRating_ok M points hlen
  refine ⟨⟨_, hr⟩, ?_⟩
  intro h0 hpos _
  have hd : distance M (leftEye points) (nose points) = 0 := by
    unfold distance
    rw [hco]
    simpa using h0
  refine ⟨?_, ?_⟩
  · rw [hd]; exact max_eq_right hpos.le
  · rw [calculateSymmetry_ok M points hlen, hd, min_eq_left hpos.le, max_eq_right hpos.le,
      zero_div]

end Coincident

theorem ratingOf_coincident_sample :
    ratingOf (1 / 2 : ℝ) (600 / 809) (1 / 2) = ⟨0.6, 50, 74, 50⟩ := by
  have h1 : mathRound (((1 / 2 : ℝ) * 0.3 + 600 / 809 * 0.4 + 1 / 2 * 0.3) * 10) = 6 := by
    rw [mathRound_eq_iff]; norm_num
  have h2 : mathRound ((1 / 2 : ℝ) * 100) = 50 := by
    rw [mathRound_eq_iff]; norm_num
  have h3 : mathRound ((600 / 809 : ℝ) * 100) = 74 := by
    rw [mathRound_eq_iff]; norm_num
  show RatingResult.mk _ _ _ _ = _
  rw [h1, h2, h3]
  norm_num

/-- C3 as stated fails: on a 68-point landmark set whose `leftEye` and `nose`
are both the origin (with `rightEye = (6,0)` and mouth corners `(-3,4)`,
`(3,4)`) scoring does not fail; it returns the rating
`total = 0.6, symmetry = 50, proportions = 74, landmarks = 50`. -/
theorem coincident_eye_is_rated :
    55 ≤ (coincidentFace : List (Point ℝ)).length
      ∧ leftEye (coincidentFace : List (Point ℝ))
          = nose (coincidentFace : List (Point ℝ))
      ∧ calculateFaceRating (⟨Real.sqrt, fun y x => Complex.arg ⟨x, y⟩, Real.pi⟩ : MathLib ℝ)
          coincidentFace = Except.ok ⟨0.6, 50, 74, 50⟩
      ∧ calculateFaceRating (⟨Real.sqrt, fun y x => Complex.arg ⟨x, y⟩, Real.pi⟩ : MathLib ℝ)
          coincidentFace
          ≠ Except.error ScoreError.DegenerateGeometry := by
  obtain ⟨hS, hP, hL⟩ := coincident_sample_metrics
  have hr := calculateFaceRating_of_ok _ _ _ _ _ hS hP hL
  rw [ratingOf_coincident_sample] at hr
  refine ⟨coincidentFace_length, rfl, hr, ?_⟩
  rw [hr]
  intro h
  cases h

theorem coincident_eye_returns_rating_witness :
    55 ≤ (coincidentFace : List (Point ℝ)).length
      ∧ leftEye (coincidentFace : List (Point ℝ))
          = nose (coincidentFace : List (Point ℝ))
      ∧ Real.sqrt 0 = 0
      ∧ 0 < distance (⟨Real.sqrt, fun y x => Complex.arg ⟨x, y⟩, Real.pi⟩ : MathLib ℝ)
          (rightEye (coincidentFace : List (Point ℝ)))
          (nose (coincidentFace : List (Point ℝ)))
      ∧ 0 < distance (⟨Real.sqrt, fun y x => Complex.arg ⟨x, y⟩, Real.pi⟩ : MathLib ℝ)
          (leftMouth (coincidentFace : List (Point ℝ)))
          (nose (coincidentFace : List (Point ℝ)))
      ∧ (∃ r, calculateFaceRating
          (⟨Real.sqrt, fun y x => Complex.arg ⟨x, y⟩, Real.pi⟩ : MathLib ℝ)
          coincidentFace = Except.ok r)
      ∧ max (distance (⟨Real.sqrt, fun y x => Complex.arg ⟨x, y⟩, Real.pi⟩ : MathLib ℝ)
            (leftEye (coincidentFace : List (Point ℝ)))
            (nose (coincidentFace : List (Point ℝ))))
          (distance (⟨Real.sqrt, fun y x => Complex.arg ⟨x, y⟩, Real.pi⟩ : MathLib ℝ)
            (rightEye (coincidentFace : List (Point ℝ)))
            (nose (coincidentFace : List (Point ℝ))))
        = distance (⟨Real.sqrt, fun y x => Complex.arg ⟨x, y⟩, Real.pi⟩ : MathLib ℝ)
            (rightEye (coincidentFace : List (Point ℝ)))
            (nose (coincidentFace : List (Point ℝ))) := by
  have hlen : 55 ≤ (coincidentFace : List (Point ℝ)).length := coincidentFace_length
  have hpos : 0 < distance (⟨Real.sqrt, fun y x => Complex.arg ⟨x, y⟩, Real.pi⟩ : MathLib ℝ)
      (rightEye (coincidentFace : List (Point ℝ)))
      (nose (coincidentFace : List (Point ℝ))) := by
    simp only [coincidentFace, distance, rightEye_sampleFace, nose_sampleFace]
    norm_num
  have hmouth : 0 < distance (⟨Real.sqrt, fun y x => Complex.arg ⟨x, y⟩, Real.pi⟩ : MathLib ℝ)
      (leftMouth (coincidentFace : List (Point ℝ)))
      (nose (coincidentFace : List (Point ℝ))) := by
    simp only [coincidentFace, distance, leftMouth_sampleFace, nose_sampleFace]
    norm_num
  have h := coincident_eye_returns_rating
    (⟨Real.sqrt, fun y x => Complex.arg ⟨x, y⟩, Real.pi⟩ : MathLib ℝ)
    coincidentFace hlen rfl
  exact ⟨hlen, rfl, Real.sqrt_zero, hpos, hmouth, h.1, (h.2 Real.sqrt_zero hpos hmouth).1⟩

/-! ## Witnesses on the sample faces -/

theorem symmetricFace_length {α : Type} [LinearOrderedField α] :
    55 ≤ (symmetricFace : List (Point α)).length := by
  unfold symmetricFace
  rw [sampleFace_length]
  norm_num

theorem goldenFace_length {α : Type} [LinearOrderedField α] :
    55 ≤ (goldenFace : List (Point α)).length := by
  unfold goldenFace
  rw [sampleFace_length]
  norm_num

theorem wideFace_length {α : Type} [LinearOrderedField α] :
    55 ≤ (wideFace : List (Point α)).length := by
  unfold wideFace
  rw [sampleFace_length]
  norm_num

theorem symmetricFace_distances :
    distance (⟨Real.sqrt, fun y x => Complex.arg ⟨x, y⟩, Real.pi⟩ : MathLib ℝ)
        (nose symmetricFace) (leftEye symmetricFace) = 5
      ∧ distance (⟨Real.sqrt, fun y x => Complex.arg ⟨x, y⟩, Real.pi⟩ : MathLib ℝ)
        (nose symmetricFace) (rightEye symmetricFace) = 5
      ∧ distance (⟨Real.sqrt, fun y x => Complex.arg ⟨x, y⟩, Real.pi⟩ : MathLib ℝ)
        (nose symmetricFace) (leftMouth symmetricFace) = 5
      ∧ distance (⟨Real.sqrt, fun y x => Complex.arg ⟨x, y⟩, Real.pi⟩ : MathLib ℝ)
        (nose symmetricFace) (rightMouth symmetricFace) = 5
      ∧ faceWidth (⟨Real.sqrt, fun y x => Complex.arg ⟨x, y⟩, Real.pi⟩ : MathLib ℝ)
        symmetricFace = 6
      ∧ faceHeight (⟨Real.sqrt, fun y x => Complex.arg ⟨x, y⟩, Real.pi⟩ : MathLib ℝ)
        symmetricFace = 8 := by
  have s25 : Real.sqrt 25 = 5 := real_sqrt_of_sq 25 5 (by norm_num) (by norm_num)
  have s36 : Real.sqrt 36 = 6 := real_sqrt_of_sq 36 6 (by norm_num) (by norm_num)
  have s64 : Real.sqrt 64 = 8 := real_sqrt_of_sq 64 8 (by norm_num) (by norm_num)
  unfold symmetricFace
  refine ⟨?_, ?_, ?_, ?_, ?_, ?_⟩ <;>
    simp only [faceWidth, faceHeight, distance, center, leftEye_sampleFace,
      rightEye_sampleFace, nose_sampleFace, leftMouth_sampleFace, rightMouth_sampleFace] <;>
    norm_num [s25, s36, s64]

theorem goldenFace_distances :
    faceWidth (⟨Real.sqrt, fun y x => Complex.arg ⟨x, y⟩, Real.pi⟩ : MathLib ℝ) goldenFace = 1618
      ∧ faceHeight (⟨Real.sqrt, fun y x => Complex.arg ⟨x, y⟩, Real.pi⟩ : MathLib ℝ)
        goldenFace = 1000 := by
  have s1 : Real.sqrt 2617924 = 1618 := real_sqrt_of_sq _ 1618 (by norm_num) (by norm_num)
  have s2 : Real.sqrt 1000000 = 1000 := real_sqrt_of_sq _ 1000 (by norm_num) (by norm_num)
  unfold goldenFace
  refine ⟨?_, ?_⟩ <;>
    simp only [faceWidth, faceHeight, distance, center, leftEye_sampleFace,
      rightEye_sampleFace, nose_sampleFace, leftMouth_sampleFace, rightMouth_sampleFace] <;>
    norm_num [s1, s2]

theorem mirror_face_full_symmetry_witness :
    calculateSymmetry (⟨Real.sqrt, fun y x => Complex.arg ⟨x, y⟩, Real.pi⟩ : MathLib ℝ)
        symmetricFace = Except.ok 1
      ∧ ∃ r, calculateFaceRating (⟨Real.sqrt, fun y x => Complex.arg ⟨x, y⟩, Real.pi⟩ : MathLib ℝ)
          symmetricFace = Except.ok r ∧ r.symmetry = 100 := by
  obtain ⟨h1, h2, h3, h4, -, -⟩ := symmetricFace_distances
  exact mirror_face_full_symmetry _ _ symmetricFace_length (by rw [h1, h2])
    (by rw [h1]; norm_num) (by rw [h3, h4]) (by rw [h3]; norm_num)

theorem golden_face_full_proportions_witness :
    calculateProportions (⟨Real.sqrt, fun y x => Complex.arg ⟨x, y⟩, Real.pi⟩ : MathLib ℝ)
        goldenFace = Except.ok 1
      ∧ ∃ r, calculateFaceRating (⟨Real.sqrt, fun y x => Complex.arg ⟨x, y⟩, Real.pi⟩ : MathLib ℝ)
          goldenFace = Except.ok r ∧ r.proportions = 100 := by
  obtain ⟨h1, h2⟩ := goldenFace_distances
  exact golden_face_full_proportions _ _ goldenFace_length (by rw [h2]; norm_num)
    (by rw [h1, h2]; norm_num)

theorem wideFace_distances :
    faceWidth (⟨Real.sqrt, fun y x => Complex.arg ⟨x, y⟩, Real.pi⟩ : MathLib ℝ) wideFace = 40
      ∧ faceHeight (⟨Real.sqrt, fun y x => Complex.arg ⟨x, y⟩, Real.pi⟩ : MathLib ℝ)
        wideFace = 10 := by
  have s1 : Real.sqrt 1600 = 40 := real_sqrt_of_sq _ 40 (by norm_num) (by norm_num)
  have s2 : Real.sqrt 100 = 10 := real_sqrt_of_sq _ 10 (by norm_num) (by norm_num)
  unfold wideFace
  refine ⟨?_, ?_⟩ <;>
    simp only [faceWidth, faceHeight, distance, center, leftEye_sampleFace,
      rightEye_sampleFace, nose_sampleFace, leftMouth_sampleFace, rightMouth_sampleFace] <;>
    norm_num [s1, s2]

theorem proportions_linear_falloff_witness :
    0 < faceHeight (⟨Real.sqrt, fun y x => Complex.arg ⟨x, y⟩, Real.pi⟩ : MathLib ℝ) wideFace
      ∧ 2 * 1.618 ≤
        faceWidth (⟨Real.sqrt, fun y x => Complex.arg ⟨x, y⟩, Real.pi⟩ : MathLib ℝ) wideFace
          / faceHeight (⟨Real.sqrt, fun y x => Complex.arg ⟨x, y⟩, Real.pi⟩ : MathLib ℝ) wideFace
      ∧ calculateProportions (⟨Real.sqrt, fun y x => Complex.arg ⟨x, y⟩, Real.pi⟩ : MathLib ℝ)
        wideFace = Except.ok 0 := by
  obtain ⟨h1, h2⟩ := wideFace_distances
  have hpos : 0 < faceHeight (⟨Real.sqrt, fun y x => Complex.arg ⟨x, y⟩, Real.pi⟩ : MathLib ℝ)
      wideFace := by rw [h2]; norm_num
  have hwide : 2 * 1.618 ≤
      faceWidth (⟨Real.sqrt, fun y x => Complex.arg ⟨x, y⟩, Real.pi⟩ : MathLib ℝ) wideFace
        / faceHeight (⟨Real.sqrt, fun y x => Complex.arg ⟨x, y⟩, Real.pi⟩ : MathLib ℝ)
          wideFace := by
    rw [h1, h2]; norm_num
  obtain ⟨v, hv, -, -, -, hz⟩ := proportions_linear_falloff _ _ wideFace_length hpos
  rw [hz hwide] at hv
  exact ⟨hpos, hwide, hv⟩

/-! ## Eye alignment -/

section Alignment

variable {α : Type} [LinearOrderedField α]

/-- C7: the eye alignment score `max(0, 1 - eyeAngle / (PI / 6))`, the function
that `calculateLandmarkPositioning` applies to
`eyeAngle = |atan2(rightEye.y - leftEye.y, rightEye.x - leftEye.x)|`, is
strictly decreasing in the angle from 0 up to `PI / 6`, is 0 for every angle
of at least `PI / 6`, and is never negative.  `Math.PI` is assumed positive. -/
theorem eye_alignment_falloff (M : MathLib α) (hpi : 0 < M.PI) :
    (∀ a b, 0 ≤ a → a < b → b ≤ M.PI / 6 → eyeAlignmentScore M b < eyeAlignmentScore M a)
      ∧ (∀ a, M.PI / 6 ≤ a → eyeAlignmentScore M a = 0)
      ∧ (∀ a, 0 ≤ eyeAlignmentScore M a)
      ∧ ∀ points : List (Point α), 0 ≤ eyeAngle M points := by
  have h6 : 0 < M.PI / 6 := by positivity
  refine ⟨?_, ?_, fun a => le_max_left _ _, fun points => abs_nonneg _⟩
  · intro a b _ hab hb
    unfold eyeAlignmentScore
    have hlt : b / (M.PI / 6) ≤ 1 := (div_le_one h6).2 hb
    have hdiv : a / (M.PI / 6) < b / (M.PI / 6) := div_lt_div_of_pos_right hab h6
    rw [max_eq_right (by linarith)]
    exact lt_of_lt_of_le (by linarith) (le_max_right _ _)
  · intro a ha
    unfold eyeAlignmentScore
    have hge : 1 ≤ a / (M.PI / 6) := (one_le_div h6).2 ha
    exact max_eq_left (by linarith)

end Alignment

theorem eye_alignment_falloff_witness :
    (0 : ℝ) < Real.pi ∧ (0 : ℝ) ≤ 0 ∧ (0 : ℝ) < Real.pi / 12 ∧ Real.pi / 12 ≤ Real.pi / 6
      ∧ Real.pi / 6 ≤ Real.pi / 4
      ∧ eyeAlignmentScore (⟨Real.sqrt, fun y x => Complex.arg ⟨x, y⟩, Real.pi⟩ : MathLib ℝ)
          (Real.pi / 12)
        < eyeAlignmentScore (⟨Real.sqrt, fun y x => Complex.arg ⟨x, y⟩, Real.pi⟩ : MathLib ℝ) 0
      ∧ eyeAlignmentScore (⟨Real.sqrt, fun y x => Complex.arg ⟨x, y⟩, Real.pi⟩ : MathLib ℝ)
          (Real.pi / 4) = 0 := by
  have hp := Real.pi_pos
  have h1 : (0 : ℝ) < Real.pi / 12 := by positivity
  have h2 : Real.pi / 12 ≤ Real.pi / 6 := by linarith
  have h3 : Real.pi / 6 ≤ Real.pi / 4 := by linarith
  have h := eye_alignment_falloff
    (⟨Real.sqrt, fun y x => Complex.arg ⟨x, y⟩, Real.pi⟩ : MathLib ℝ) hp
  exact ⟨hp, le_refl 0, h1, h2, h3, h.1 0 (Real.pi / 12) (le_refl 0) h1 h2,
    h.2.1 (Real.pi / 4) h3⟩

/-! ## Scaling and translation -/

section Invariance

variable {α : Type} [LinearOrderedField α]

theorem getD_map_scaleShift (k tx ty : α) (points : List (Point α)) (i : ℕ)
    (h : i < points.length) :
    (points.map (scaleShift k tx ty)).getD i ⟨0, 0⟩
      = scaleShift k tx ty (points.getD i ⟨0, 0⟩) := by
  rw [List.getD_eq_getElem _ _ (by simpa using h), List.getD_eq_getElem _ _ h, List.getElem_map]

theorem distance_scaleShift (M : MathLib α)
    (hscale : ∀ k a, 0 < k → 0 ≤ a → M.sqrt (k ^ 2 * a) = k * M.sqrt a)
    (k tx ty : α) (hk : 0 < k) (a b : Point α) :
    distance M (scaleShift k tx ty a) (scaleShift k tx ty b) = k * distance M a b := by
  unfold distance scaleShift
  rw [← hscale k _ hk (by positivity)]
  congr 1
  ring

theorem center_scaleShift (k tx ty : α) (a b : Point α) :
    center (scaleShift k tx ty a) (scaleShift k tx ty b) = scaleShift k tx ty (center a b) := by
  unfold center scaleShift
  congr 1 <;> ring

theorem min_div_max_scale (k a b : α) (hk : 0 < k) :
    min (k * a) (k * b) / max (k * a) (k * b) = min a b / max a b := by
  rw [← mul_min_of_nonneg _ _ hk.le, ← mul_max_of_nonneg _ _ hk.le,
    mul_div_mul_left _ _ (ne_of_gt hk)]

end Invariance

section InvarianceMain

variable {α : Type} [LinearOrderedField α]

theorem metrics_scaleShift (M : MathLib α) (points : List (Point α)) (k tx ty : α)
    (hk : 0 < k)
    (hscale : ∀ k a, 0 < k → 0 ≤ a → M.sqrt (k ^ 2 * a) = k * M.sqrt a)
    (hatan : ∀ k y x, 0 < k → M.atan2 (k * y) (k * x) = M.atan2 y x)
    (hlen : 55 ≤ points.length) :
    calculateSymmetry M (points.map (scaleShift k tx ty)) = calculateSymmetry M points
      ∧ calculateProportions M (points.map (scaleShift k tx ty)) = calculateProportions M points
      ∧ calculateLandmarkPositioning M (points.map (scaleShift k tx ty))
          = calculateLandmarkPositioning M points := by
  have hlen2 : 55 ≤ (points.map (scaleShift k tx ty)).length := by simpa using hlen
  have e36 : leftEye (points.map (scaleShift k tx ty)) = scaleShift k tx ty (leftEye points) :=
    getD_map_scaleShift k tx ty points 36 (by omega)
  have e45 : rightEye (points.map (scaleShift k tx ty)) = scaleShift k tx ty (rightEye points) :=
    getD_map_scaleShift k tx ty points 45 (by omega)
  have e30 : nose (points.map (scaleShift k tx ty)) = scaleShift k tx ty (nose points) :=
    getD_map_scaleShift k tx ty points 30 (by omega)
  have e48 : leftMouth (points.map (scaleShift k tx ty))
      = scaleShift k tx ty (leftMouth points) :=
    getD_map_scaleShift k tx ty points 48 (by omega)
  have e54 : rightMouth (points.map (scaleShift k tx ty))
      = scaleShift k tx ty (rightMouth points) :=
    getD_map_scaleShift k tx ty points 54 (by omega)
  have hd := distance_scaleShift M hscale k tx ty hk
  refine ⟨?_, ?_, ?_⟩
  · rw [calculateSymmetry_ok M _ hlen2, calculateSymmetry_ok M _ hlen, e36, e45, e30, e48, e54,
      hd, hd, hd, hd, min_div_max_scale _ _ _ hk, min_div_max_scale _ _ _ hk]
  · rw [calculateProportions_ok M _ hlen2, calculateProportions_ok M _ hlen]
    unfold faceWidth faceHeight
    rw [e36, e45, e48, e54, center_scaleShift, center_scaleShift, hd, hd,
      mul_div_mul_left _ _ (ne_of_gt hk)]
  · rw [calculateLandmarkPositioning_ok M _ hlen2, calculateLandmarkPositioning_ok M _ hlen]
    have hang : eyeAngle M (points.map (scaleShift k tx ty)) = eyeAngle M points := by
      unfold eyeAngle
      rw [e36, e45]
      have hy : (scaleShift k tx ty (rightEye points)).y - (scaleShift k tx ty (leftEye points)).y
          = k * ((rightEye points).y - (leftEye points).y) := by
        unfold scaleShift; ring
      have hx : (scaleShift k tx ty (rightEye points)).x - (scaleShift k tx ty (leftEye points)).x
          = k * ((rightEye points).x - (leftEye points).x) := by
        unfold scaleShift; ring
      rw [hy, hx, hatan _ _ _ hk]
    have hnose : nosePositionRatio M (points.map (scaleShift k tx ty))
        = nosePositionRatio M points := by
      unfold nosePositionRatio noseToMouth
      rw [e36, e45, e30, e48, e54, center_scaleShift, hd, hd, hd,
        ← mul_min_of_nonneg _ _ hk.le, mul_div_assoc, min_div_max_scale _ _ _ hk]
    rw [hang, hnose]

/-- C9, in exact arithmetic: for a valid landmark set, a positive factor `k`
and an offset `(tx, ty)`, replacing every point `(x, y)` by
`(k*x + tx, k*y + ty)` leaves `calculateSymmetry`, `calculateProportions`,
`calculateLandmarkPositioning` and the whole result of `calculateFaceRating`
unchanged, when the built-ins are exact: the square root of `k^2 * a` is `k`
times the square root of `a`, and `atan2` does not change when both arguments
are multiplied by `k`.  Under binary64 rounding the square root does not have
this property and the values move (`scaling_changes_symmetry_in_binary64`). -/
theorem scale_shift_invariance [FloorRing α] (M : MathLib α) (points : List (Point α))
    (k tx ty : α) (hk : 0 < k)
    (hscale : ∀ k a, 0 < k → 0 ≤ a → M.sqrt (k ^ 2 * a) = k * M.sqrt a)
    (hatan : ∀ k y x, 0 < k → M.atan2 (k * y) (k * x) = M.atan2 y x)
    (hv : Valid M points) :
    calculateSymmetry M (points.map (scaleShift k tx ty)) = calculateSymmetry M points
      ∧ calculateProportions M (points.map (scaleShift k tx ty)) = calculateProportions M points
      ∧ calculateLandmarkPositioning M (points.map (scaleShift k tx ty))
          = calculateLandmarkPositioning M points
      ∧ calculateFaceRating M (points.map (scaleShift k tx ty)) = calculateFaceRating M points
      ∧ ∃ r, calculateFaceRating M points = Except.ok r := by
  obtain ⟨hS, hP, hL⟩ := metrics_scaleShift M points k tx ty hk hscale hatan hv.1
  obtain ⟨S, P, L, -, -, -, hr⟩ := calculateFaceRating_ok M points hv.1
  refine ⟨hS, hP, hL, ?_, _, hr⟩
  unfold calculateFaceRating
  rw [hS, hP, hL]

end InvarianceMain

theorem scale_shift_invariance_witness :
    (0 : ℝ) < 2
      ∧ Valid (⟨Real.sqrt, fun y x => Complex.arg ⟨x, y⟩, Real.pi⟩ : MathLib ℝ) symmetricFace
      ∧ calculateFaceRating (⟨Real.sqrt, fun y x => Complex.arg ⟨x, y⟩, Real.pi⟩ : MathLib ℝ)
          (symmetricFace.map (scaleShift 2 1 (-1)))
        = calculateFaceRating (⟨Real.sqrt, fun y x => Complex.arg ⟨x, y⟩, Real.pi⟩ : MathLib ℝ)
          symmetricFace :=
  ⟨by norm_num, sample_valid,
    (scale_shift_invariance _ _ 2 1 (-1) (by norm_num) real_sqrt_scale real_atan2_scale
      sample_valid).2.2.2.1⟩

/-- The rating of the mirror-symmetric sample, evaluated in full: no divisor is
zero on it, and the result is `total = 0.7`, `symmetry = 100`,
`proportions = 46`, `landmarks = 63`. -/
theorem symmetricFace_rating :
    calculateFaceRating (⟨Real.sqrt, fun y x => Complex.arg ⟨x, y⟩, Real.pi⟩ : MathLib ℝ)
      symmetricFace = Except.ok ⟨0.7, 100, 46, 63⟩ := by
  have s25 : Real.sqrt 25 = 5 := real_sqrt_of_sq 25 5 (by norm_num) (by norm_num)
  have s36 : Real.sqrt 36 = 6 := real_sqrt_of_sq 36 6 (by norm_num) (by norm_num)
  have s64 : Real.sqrt 64 = 8 := real_sqrt_of_sq 64 8 (by norm_num) (by norm_num)
  have s16 : Real.sqrt 16 = 4 := real_sqrt_of_sq 16 4 (by norm_num) (by norm_num)
  have a0 : Complex.arg ⟨6, 0⟩ = 0 := real_atan2_level 6 (by norm_num)
  have hlen : 55 ≤ (sampleFace (⟨0, 0⟩ : Point ℝ) ⟨6, 0⟩ ⟨3, 4⟩ ⟨0, 8⟩ ⟨6, 8⟩).length := by
    rw [sampleFace_length]; norm_num
  unfold symmetricFace
  have hS : calculateSymmetry (⟨Real.sqrt, fun y x => Complex.arg ⟨x, y⟩, Real.pi⟩ : MathLib ℝ)
      (sampleFace ⟨0, 0⟩ ⟨6, 0⟩ ⟨3, 4⟩ ⟨0, 8⟩ ⟨6, 8⟩) = Except.ok 1 := by
    rw [calculateSymmetry_ok _ _ hlen]
    simp only [distance, leftEye_sampleFace, rightEye_sampleFace, nose_sampleFace,
      leftMouth_sampleFace, rightMouth_sampleFace]
    norm_num [s25]
  have hP : calculateProportions (⟨Real.sqrt, fun y x => Complex.arg ⟨x, y⟩, Real.pi⟩ : MathLib ℝ)
      (sampleFace ⟨0, 0⟩ ⟨6, 0⟩ ⟨3, 4⟩ ⟨0, 8⟩ ⟨6, 8⟩) = Except.ok (375 / 809) := by
    rw [calculateProportions_ok _ _ hlen]
    simp only [faceWidth, faceHeight, distance, center, leftEye_sampleFace,
      rightEye_sampleFace, nose_sampleFace, leftMouth_sampleFace, rightMouth_sampleFace]
    norm_num [s36, s64]
    rw [abs_of_pos (by norm_num : (0 : ℝ) < 217 / 250)]
    norm_num
  have hL : calculateLandmarkPositioning
      (⟨Real.sqrt, fun y x => Complex.arg ⟨x, y⟩, Real.pi⟩ : MathLib ℝ)
      (sampleFace ⟨0, 0⟩ ⟨6, 0⟩ ⟨3, 4⟩ ⟨0, 8⟩ ⟨6, 8⟩) = Except.ok (19 / 30) := by
    rw [calculateLandmarkPositioning_ok _ _ hlen]
    simp only [nosePositionRatio, eyeAngle, eyeAlignmentScore, noseToMouth, distance, center,
      leftEye_sampleFace, rightEye_sampleFace, nose_sampleFace, leftMouth_sampleFace,
      rightMouth_sampleFace]
    norm_num [s16, s25, a0]
  rw [calculateFaceRating_of_ok _ _ _ _ _ hS hP hL]
  have h1 : mathRound (((1 : ℝ) * 0.3 + 375 / 809 * 0.4 + 19 / 30 * 0.3) * 10) = 7 := by
    rw [mathRound_eq_iff]; norm_num
  have h2 : mathRound ((375 / 809 : ℝ) * 100) = 46 := by
    rw [mathRound_eq_iff]; norm_num
  have h3 : mathRound ((19 / 30 : ℝ) * 100) = 63 := by
    rw [mathRound_eq_iff]; norm_num
  show Except.ok (RatingResult.mk _ _ _ _) = _
  rw [h1, h2, h3, mathRound_hundred]
  norm_num

/-! ## Scaling under binary64 rounding -/

theorem except_eq_ok_of_toOption {ε β : Type} (x : Except ε β) (v : β)
    (h : x.toOption = some v) : x = Except.ok v := by
  cases x with
  | error e => cases h
  | ok a =>
    have h1 : some a = some v := h
    rw [Option.some.inj h1]

/-- Reference values of the binary64 layer: `Math.sqrt(2)` is
`1.4142135623730951`, `1 / 3` is `0.3333333333333333`, `0.1 + 0.2` is
`0.30000000000000004`, and `Math.sqrt(18)` (`4.242640687119285`) differs from
`3 * Math.sqrt(2)` (`4.242640687119286`). -/
theorem binary64_reference_values :
    sqrtDouble 2 = 6369051672525773 / 4503599627370496
      ∧ div64 1 3 = 6004799503160661 / 18014398509481984
      ∧ add64 (toDouble 0.1) (toDouble 0.2) = 1351079888211149 / 4503599627370496
      ∧ sqrtDouble 18 = 4776788754394329 / 1125899906842624
      ∧ mul64 3 (sqrtDouble 2) = 2388394377197165 / 562949953421312
      ∧ sqrtDouble 18 ≠ mul64 3 (sqrtDouble 2) := by
  decide!

theorem tiltedFace_valid :
    Valid (⟨Real.sqrt, fun y x => Complex.arg ⟨x, y⟩, Real.pi⟩ : MathLib ℝ) tiltedFace := by
  unfold tiltedFace
  refine ⟨by rw [sampleFace_length]; norm_num, ?_, ?_, ?_, ?_, ?_, ?_⟩ <;>
    simp only [faceHeight, noseToMouth, distance, center, leftEye_sampleFace,
      rightEye_sampleFace, nose_sampleFace, leftMouth_sampleFace, rightMouth_sampleFace] <;>
    rw [Real.sqrt_ne_zero'] <;>
    norm_num

/-- C9 as stated fails on the arithmetic the code runs in.  On the valid
sample with eye corners `(178,167)`, `(240,140)`, nose `(200,200)` and mouth
corners `(170,240)`, `(230,240)`, binary64 evaluation of `calculateSymmetry`
gives `0.7749999999999999`, and after every coordinate is multiplied by 3 it
gives `0.775`; the `symmetry` field of the rating changes from 77 to 78. -/
theorem scaling_changes_symmetry_in_binary64 :
    Valid (⟨Real.sqrt, fun y x => Complex.arg ⟨x, y⟩, Real.pi⟩ : MathLib ℝ) tiltedFace
      ∧ (0 : ℚ) < 3
      ∧ calculateSymmetry64 tiltedFace
          = Except.ok (1745144855606067 / 2251799813685248)
      ∧ calculateSymmetry64 (tiltedFace.map (scaleShift 3 0 0))
          = Except.ok (6980579422424269 / 9007199254740992)
      ∧ calculateSymmetry64 (tiltedFace.map (scaleShift 3 0 0)) ≠ calculateSymmetry64 tiltedFace
      ∧ symmetryField64 tiltedFace = Except.ok 77
      ∧ symmetryField64 (tiltedFace.map (scaleShift 3 0 0)) = Except.ok 78 := by
  have h1 : calculateSymmetry64 tiltedFace
      = Except.ok (1745144855606067 / 2251799813685248) :=
    except_eq_ok_of_toOption _ _ (by decide!)
  have h3 : calculateSymmetry64 (tiltedFace.map (scaleShift 3 0 0))
      = Except.ok (6980579422424269 / 9007199254740992) :=
    except_eq_ok_of_toOption _ _ (by decide!)
  refine ⟨tiltedFace_valid, by norm_num, h1, h3, ?_, except_eq_ok_of_toOption _ _ (by decide!),
    except_eq_ok_of_toOption _ _ (by decide!)⟩
  rw [h1, h3]
  intro h
  injection h with h
  revert h
  norm_num

end FaceRating
